import Mathlib

/-!
# Verification of the login security subsystem

Shallow embedding of the authentication flow of the web-labs backend:
the `/auth/login` route handler (`src/unnamed/part_003`), the `User`
model's `comparePassword` and `hashDevice` (`src/backend/models/User.ts`)
and the alert dispatch interface (`src/backend/utils/emailSender.ts`).

External collaborators (bcrypt comparison, sha256, jwt signing, the mail
transport) are modelled as abstract function parameters / outcome flags;
everything written in the repository itself is translated directly.
-/

set_option autoImplicit false

namespace WebLabs

/-- `notificationPreferences` JSONB object: `{ newDeviceAlert: boolean }`. -/
structure NotificationPreferences where
  newDeviceAlert : Bool
deriving DecidableEq, Repr

/-- The fields of the `User` model relevant to the login flow
(`src/backend/models/User.ts`).  `password` stores the bcrypt hash;
the empty string models an absent/unset hash (JS falsy `!this.password`).
`notificationPreferences` is optional because the route reads it with
optional chaining (`user.notificationPreferences?.newDeviceAlert`). -/
structure UserRec where
  id : String
  name : String
  email : String
  password : String
  lastLoginIp : Option String
  ipHistory : List String
  deviceHistory : List String
  notificationPreferences : Option NotificationPreferences
deriving DecidableEq, Repr

/-- `User.comparePassword` (`src/backend/models/User.ts` lines 37-40):

    if (!this.password) throw new Error("Password not set");
    return bcrypt.compare(candidatePassword, this.password);

`bc` is the external `bcrypt.compare` collaborator (total boolean
comparison of a candidate plaintext against a stored hash).  A thrown
error is modelled as `Except.error` with the error message. -/
def comparePassword (bc : String → String → Bool) (u : UserRec)
    (candidatePassword : String) : Except String Bool :=
  if u.password = "" then Except.error "Password not set"
  else Except.ok (bc candidatePassword u.password)

/-- `User.hashDevice` (`src/backend/models/User.ts` lines 42-44):

    return crypto.createHash("sha256").update(ua || "unknown").digest("hex");

`sha` is the external sha256-hex collaborator.  `ua || "unknown"` maps
the empty (falsy) string to the sentinel `"unknown"`. -/
def hashDevice (sha : String → String) (ua : String) : String :=
  sha (if ua = "" then "unknown" else ua)

/-- JS `[...new Set(l)]`: deduplication preserving first-occurrence
(insertion) order. -/
def dedupFirst : List String → List String
  | [] => []
  | x :: xs => x :: dedupFirst (xs.filter (fun y => y ≠ x))
termination_by l => l.length
decreasing_by
  simp only [List.length_cons]
  exact Nat.lt_succ_of_le (List.length_filter_le _ _)

/-- The history update applied by the login route to each history list
(`src/unnamed/part_003` lines 242-243):

    [...new Set([v, ...old.slice(0, 4)])]

i.e. prepend the new value to the first 4 entries of the old list, then
deduplicate keeping first occurrences. -/
def recordList (v : String) (old : List String) : List String :=
  dedupFirst (v :: old.take 4)

/-- The update rule as the spec words it (section 4.2 `record`): "prepend
the new IP, then deduplicate preserving first occurrence order, then
truncate to 5".  Kept for comparison with `recordList`. -/
def specRecord (v : String) (old : List String) : List String :=
  (dedupFirst (v :: old)).take 5

/-- The route's read of the notification preference
(`src/unnamed/part_003` line 217): `user.notificationPreferences?.newDeviceAlert`
— optional chaining yields `undefined` (falsy) when the object is absent. -/
def prefEnabled (u : UserRec) : Bool :=
  match u.notificationPreferences with
  | some p => p.newDeviceAlert
  | none => false

/-- Membership test of the Login History Tracker, read off the route
(`src/unnamed/part_003` lines 213-214):

    const isNewIp = !user.ipHistory.includes(clientIp);
    const isNewDevice = !user.deviceHistory.includes(deviceHash);
-/
def classify (u : UserRec) (clientIp deviceHash : String) : Bool × Bool :=
  (!(u.ipHistory.contains clientIp), !(u.deviceHistory.contains deviceHash))

/-- Result of one run of the login handler: HTTP status, the
`securityAlert` flag of the 200 response body, whether an alert dispatch
was attempted (the route entered the `sendSecurityAlert` call), the token
of the 200 response and the user row as it stands after the handler. -/
structure LoginResult where
  status : Nat
  securityAlert : Bool
  alertAttempted : Bool
  token : Option String
  finalUser : UserRec
deriving DecidableEq, Repr

/-- The login route handler `router.post("/login")`
(`src/unnamed/part_003` lines 191-273), from the point where the user row
has been found (the 400 validation and 404 lookup branches precede this
and touch nothing modelled here).

* `bc`, `sha`, `jwtSign` are the bcrypt / sha256 / `jwt.sign`
  collaborators; `jwtSign id secret` is the signed token.
* `secret` is `process.env.JWT_SECRET` (`none` = unconfigured).
* `mailOk` tells whether `sendSecurityAlert` succeeds (`false` = the mail
  collaborator throws; the route catches the throw and logs it).
* `passwordInput` is `req.body.password`, `clientIp` the derived client
  IP, `userAgentHdr` the raw `user-agent` header (empty = absent, the
  route defaults it with `|| "unknown"`).

A `comparePassword` throw propagates to the route's outer catch, which
answers 500 without mutating the user. `JWT_SECRET` missing also throws
to the outer catch, but only after `user.update` has run. -/
def login (bc : String → String → Bool) (sha : String → String)
    (jwtSign : String → String → String) (secret : Option String)
    (mailOk : Bool) (u : UserRec)
    (passwordInput clientIp userAgentHdr : String) : LoginResult :=
  match comparePassword bc u passwordInput with
  | Except.error _ =>
      { status := 500, securityAlert := false, alertAttempted := false,
        token := none, finalUser := u }
  | Except.ok isMatch =>
      if !isMatch then
        { status := 401, securityAlert := false, alertAttempted := false,
          token := none, finalUser := u }
      else
        let userAgent := if userAgentHdr = "" then "unknown" else userAgentHdr
        let deviceHash := hashDevice sha userAgent
        let isNewIp := !(u.ipHistory.contains clientIp)
        let isNewDevice := !(u.deviceHistory.contains deviceHash)
        let attempt := (isNewIp || isNewDevice) && prefEnabled u
        let securityAlert := attempt && mailOk
        let updated : UserRec :=
          { u with
            ipHistory := recordList clientIp u.ipHistory,
            deviceHistory := recordList deviceHash u.deviceHistory,
            lastLoginIp := some clientIp }
        match secret with
        | none =>
            { status := 500, securityAlert := false, alertAttempted := attempt,
              token := none, finalUser := updated }
        | some s =>
            { status := 200, securityAlert := securityAlert,
              alertAttempted := attempt,
              token := some (jwtSign u.id s), finalUser := updated }

/-! ## Concrete collaborator instances and accounts, used to exercise the
theorems on closed inputs -/

/-- A bcrypt comparison that accepts everything (used on concrete inputs). -/
def bcAll : String → String → Bool := fun _ _ => true

/-- A bcrypt comparison that rejects everything (used on concrete inputs). -/
def bcNone : String → String → Bool := fun _ _ => false

/-- A concrete stand-in for the sha256-hex collaborator. -/
def shaTag : String → String := fun s => "sha:" ++ s

/-- A concrete stand-in for `jwt.sign`. -/
def signCat : String → String → String := fun i s => i ++ "." ++ s

/-- A fresh account: empty histories, alerts enabled. -/
def wUser : UserRec :=
  { id := "u1", name := "Alice", email := "a@x.com", password := "hash1",
    lastLoginIp := none, ipHistory := [], deviceHistory := [],
    notificationPreferences := some { newDeviceAlert := true } }

/-- An account with the new-device alert preference disabled. -/
def wUserNoPref : UserRec :=
  { id := "u2", name := "Bob", email := "b@x.com", password := "hash2",
    lastLoginIp := none, ipHistory := [], deviceHistory := [],
    notificationPreferences := some { newDeviceAlert := false } }

/-- An account whose IP history is already full with 5 distinct entries. -/
def cxUser : UserRec :=
  { id := "u3", name := "Carol", email := "c@x.com", password := "hash3",
    lastLoginIp := some "e", ipHistory := ["a", "b", "c", "d", "e"],
    deviceHistory := [], notificationPreferences := some { newDeviceAlert := true } }

/-- An account with 4 recorded IPs, one short of the bound. -/
def cx5User : UserRec :=
  { id := "u4", name := "Dan", email := "d@x.com", password := "hash4",
    lastLoginIp := some "b", ipHistory := ["b", "c", "d", "e"],
    deviceHistory := [], notificationPreferences := some { newDeviceAlert := true } }

/-- An account whose stored password hash is absent (JS falsy). -/
def noHashUser : UserRec :=
  { id := "u5", name := "Eve", email := "e@x.com", password := "",
    lastLoginIp := none, ipHistory := [], deviceHistory := [],
    notificationPreferences := some { newDeviceAlert := true } }

/-! ## Lemmas about `dedupFirst` and `recordList` -/

theorem dedupFirst_nil : dedupFirst [] = [] := by
  rw [dedupFirst]

theorem dedupFirst_cons (x : String) (xs : List String) :
    dedupFirst (x :: xs) = x :: dedupFirst (xs.filter (fun y => y ≠ x)) := by
  rw [dedupFirst]

theorem mem_dedupFirst {a : String} : ∀ {l : List String}, a ∈ dedupFirst l ↔ a ∈ l := by
  intro l
  induction l using dedupFirst.induct with
  | case1 => rw [dedupFirst_nil]
  | case2 x xs ih =>
    rw [dedupFirst_cons]
    by_cases hax : a = x
    · subst hax; simp
    · simp only [List.mem_cons, hax, false_or]
      rw [ih, List.mem_filter]
      simp [hax]

theorem nodup_dedupFirst : ∀ (l : List String), (dedupFirst l).Nodup := by
  intro l
  induction l using dedupFirst.induct with
  | case1 => rw [dedupFirst_nil]; exact List.nodup_nil
  | case2 x xs ih =>
    rw [dedupFirst_cons]
    refine List.nodup_cons.mpr ⟨fun hmem => ?_, ih⟩
    have h := List.mem_filter.mp (mem_dedupFirst.mp hmem)
    simp at h

theorem dedupFirst_eq_self : ∀ {l : List String}, l.Nodup → dedupFirst l = l := by
  intro l
  induction l using dedupFirst.induct with
  | case1 => intro _; rw [dedupFirst_nil]
  | case2 x xs ih =>
    intro h
    rcases List.nodup_cons.mp h with ⟨hx, hxs⟩
    have hfil : xs.filter (fun y => y ≠ x) = xs := by
      refine List.filter_eq_self.mpr fun y hy => ?_
      simp only [ne_eq, decide_eq_true_eq]
      intro hyx; subst hyx; exact hx hy
    rw [hfil] at ih
    rw [dedupFirst_cons, hfil, ih hxs]

theorem dedupFirst_length_le : ∀ (l : List String), (dedupFirst l).length ≤ l.length := by
  intro l
  induction l using dedupFirst.induct with
  | case1 => rw [dedupFirst_nil]
  | case2 x xs ih =>
    rw [dedupFirst_cons]
    simp only [List.length_cons]
    exact Nat.succ_le_succ (le_trans ih (List.length_filter_le _ _))

theorem dedupFirst_cons_of_not_mem {v : String} {xs : List String}
    (hv : v ∉ xs) (hxs : xs.Nodup) : dedupFirst (v :: xs) = v :: xs := by
  rw [dedupFirst_cons]
  have hfil : xs.filter (fun y => y ≠ v) = xs := by
    refine List.filter_eq_self.mpr fun y hy => ?_
    simp only [ne_eq, decide_eq_true_eq]
    intro hyv; subst hyv; exact hv hy
  rw [hfil, dedupFirst_eq_self hxs]

theorem recordList_head (v : String) (l : List String) :
    (recordList v l).head? = some v := by
  rw [recordList, dedupFirst_cons]; rfl

theorem recordList_length_le (v : String) (l : List String) :
    (recordList v l).length ≤ 5 := by
  have h1 := dedupFirst_length_le (v :: l.take 4)
  have h2 : (l.take 4).length ≤ 4 := by
    rw [List.length_take]; omega
  rw [recordList]
  simp only [List.length_cons] at h1
  omega

theorem recordList_nodup (v : String) (l : List String) :
    (recordList v l).Nodup := nodup_dedupFirst _

theorem recordList_of_not_mem {v : String} {l : List String}
    (hv : v ∉ l) (hl : l.Nodup) : recordList v l = v :: l.take 4 := by
  rw [recordList]
  exact dedupFirst_cons_of_not_mem
    (fun h => hv (List.take_subset _ _ h))
    (List.Nodup.sublist (List.take_sublist _ _) hl)

theorem recordList_same_twice (v : String) (l : List String) :
    recordList v (recordList v l) = (recordList v l).take 4 := by
  have hr : recordList v l = v :: dedupFirst ((l.take 4).filter (fun y => y ≠ v)) := by
    rw [recordList, dedupFirst_cons]
  set t := dedupFirst ((l.take 4).filter (fun y => y ≠ v)) with ht
  have hvt : v ∉ t := by
    intro hmem
    have h := List.mem_filter.mp (mem_dedupFirst.mp hmem)
    simp at h
  have htn : t.Nodup := nodup_dedupFirst _
  rw [hr, recordList, List.take_succ_cons, dedupFirst_cons]
  have h1 : (v :: t.take 3).filter (fun y => y ≠ v) = t.take 3 := by
    have hc : ¬((fun y => decide (y ≠ v)) v = true) := by simp
    rw [List.filter_cons, if_neg hc]
    refine List.filter_eq_self.mpr fun y hy => ?_
    simp only [ne_eq, decide_eq_true_eq]
    intro hyv; subst hyv
    exact hvt (List.take_subset _ _ hy)
  rw [h1, dedupFirst_eq_self (List.Nodup.sublist (List.take_sublist _ _) htn)]

theorem recordList_same_twice_of_short (v : String) (l : List String)
    (h : (recordList v l).length ≤ 4) :
    recordList v (recordList v l) = recordList v l := by
  rw [recordList_same_twice, List.take_of_length_le h]

theorem mem_recordList_self (v : String) (l : List String) :
    v ∈ recordList v l :=
  mem_dedupFirst.mpr (List.mem_cons_self v _)

theorem recordList_six_distinct (v1 v2 v3 v4 v5 v6 : String)
    (h : ([v1, v2, v3, v4, v5, v6] : List String).Nodup) :
    recordList v6 (recordList v5 (recordList v4 (recordList v3
      (recordList v2 (recordList v1 []))))) = [v6, v5, v4, v3, v2] := by
  simp at h
  obtain ⟨⟨h12, h13, h14, h15, h16⟩, ⟨h23, h24, h25, h26⟩,
    ⟨h34, h35, h36⟩, ⟨h45, h46⟩, h56⟩ := h
  have e1 : recordList v1 [] = [v1] := by
    rw [recordList_of_not_mem (List.not_mem_nil v1) List.nodup_nil]; rfl
  have e2 : recordList v2 [v1] = [v2, v1] := by
    rw [recordList_of_not_mem (by simp; exact fun e => h12 e.symm) (by simp)]
    rfl
  have e3 : recordList v3 [v2, v1] = [v3, v2, v1] := by
    rw [recordList_of_not_mem
      (by simp; exact ⟨fun e => h23 e.symm, fun e => h13 e.symm⟩)
      (by simp; exact fun e => h12 e.symm)]
    rfl
  have e4 : recordList v4 [v3, v2, v1] = [v4, v3, v2, v1] := by
    rw [recordList_of_not_mem
      (by simp
          exact ⟨fun e => h34 e.symm, fun e => h24 e.symm, fun e => h14 e.symm⟩)
      (by simp
          exact ⟨⟨fun e => h23 e.symm, fun e => h13 e.symm⟩, fun e => h12 e.symm⟩)]
    rfl
  have e5 : recordList v5 [v4, v3, v2, v1] = [v5, v4, v3, v2, v1] := by
    rw [recordList_of_not_mem
      (by simp
          exact ⟨fun e => h45 e.symm, fun e => h35 e.symm, fun e => h25 e.symm,
            fun e => h15 e.symm⟩)
      (by simp
          exact ⟨⟨fun e => h34 e.symm, fun e => h24 e.symm, fun e => h14 e.symm⟩,
            ⟨fun e => h23 e.symm, fun e => h13 e.symm⟩, fun e => h12 e.symm⟩)]
    rfl
  have e6 : recordList v6 [v5, v4, v3, v2, v1] = [v6, v5, v4, v3, v2] := by
    rw [recordList_of_not_mem
      (by simp
          exact ⟨fun e => h56 e.symm, fun e => h46 e.symm, fun e => h36 e.symm,
            fun e => h26 e.symm, fun e => h16 e.symm⟩)
      (by simp
          exact ⟨⟨fun e => h45 e.symm, fun e => h35 e.symm, fun e => h25 e.symm,
              fun e => h15 e.symm⟩,
            ⟨fun e => h34 e.symm, fun e => h24 e.symm, fun e => h14 e.symm⟩,
            ⟨fun e => h23 e.symm, fun e => h13 e.symm⟩, fun e => h12 e.symm⟩)]
    rfl
  rw [e1, e2, e3, e4, e5, e6]

/-! ## Bridge lemmas between boolean tests and propositions -/

theorem contains_iff_mem (l : List String) (a : String) :
    l.contains a = true ↔ a ∈ l := List.elem_iff

theorem contains_eq_false_iff (l : List String) (a : String) :
    l.contains a = false ↔ a ∉ l := by
  constructor
  · intro h hm
    rw [(contains_iff_mem l a).mpr hm] at h
    cases h
  · intro h
    cases hc : l.contains a with
    | false => rfl
    | true => exact absurd ((contains_iff_mem l a).mp hc) h

theorem prefEnabled_iff (u : UserRec) :
    prefEnabled u = true ↔
      u.notificationPreferences = some { newDeviceAlert := true } := by
  cases hp : u.notificationPreferences with
  | none => simp [prefEnabled, hp]
  | some p =>
    cases p with
    | mk b => cases b <;> simp [prefEnabled, hp]

/-- Unfolding of `login` once the password has been verified successfully. -/
theorem login_of_match (bc : String → String → Bool) (sha : String → String)
    (jwtSign : String → String → String) (secret : Option String)
    (mailOk : Bool) (u : UserRec) (pw ip ua : String)
    (hset : u.password ≠ "") (hmatch : bc pw u.password = true) :
    login bc sha jwtSign secret mailOk u pw ip ua =
      (let deviceHash := hashDevice sha (if ua = "" then "unknown" else ua)
       let attempt := (!(u.ipHistory.contains ip)
           || !(u.deviceHistory.contains deviceHash)) && prefEnabled u
       let updated : UserRec :=
         { u with
           ipHistory := recordList ip u.ipHistory,
           deviceHistory := recordList deviceHash u.deviceHistory,
           lastLoginIp := some ip }
       match secret with
       | none =>
           { status := 500, securityAlert := false, alertAttempted := attempt,
             token := none, finalUser := updated }
       | some s =>
           { status := 200, securityAlert := attempt && mailOk,
             alertAttempted := attempt,
             token := some (jwtSign u.id s), finalUser := updated }) := by
  have hcp : comparePassword bc u pw = Except.ok true := by
    rw [comparePassword, if_neg hset, hmatch]
  cases secret with
  | none => simp [login, hcp]
  | some s => simp [login, hcp]

/-! ## Claims -/

/-- C1: on every login whose password verification succeeds, the alert decision
is the classification computed by membership tests against the account's
history lists as they were before this login's update (its own IP is a member
only afterwards), and a first-ever login (both history lists empty) is always
classified as both new-IP and new-device. -/
theorem C1_classification_reads_pre_update_lists
    (bc : String → String → Bool) (sha : String → String)
    (jwtSign : String → String → String) (secret : Option String)
    (mailOk : Bool) (u : UserRec) (pw ip ua : String)
    (hset : u.password ≠ "") (hmatch : bc pw u.password = true) :
    ((login bc sha jwtSign secret mailOk u pw ip ua).alertAttempted
        = (((classify u ip (hashDevice sha (if ua = "" then "unknown" else ua))).1
            || (classify u ip (hashDevice sha (if ua = "" then "unknown" else ua))).2)
          && prefEnabled u))
    ∧ (u.ipHistory = [] → u.deviceHistory = [] →
        classify u ip (hashDevice sha (if ua = "" then "unknown" else ua)) = (true, true))
    ∧ ip ∈ (login bc sha jwtSign secret mailOk u pw ip ua).finalUser.ipHistory := by
  rw [login_of_match bc sha jwtSign secret mailOk u pw ip ua hset hmatch]
  refine ⟨?_, ?_, ?_⟩
  · cases secret with
    | none => simp [classify]
    | some s => simp [classify]
  · intro h1 h2
    simp [classify, h1, h2]
  · cases secret with
    | none => exact mem_recordList_self ip u.ipHistory
    | some s => exact mem_recordList_self ip u.ipHistory

theorem C1_witness :
    wUser.password ≠ "" ∧ bcAll "pw" wUser.password = true
    ∧ (((login bcAll shaTag signCat (some "sec") true wUser "pw" "9.9.9.9" "ua").alertAttempted
        = (((classify wUser "9.9.9.9" (hashDevice shaTag (if ("ua" : String) = "" then "unknown" else "ua"))).1
            || (classify wUser "9.9.9.9" (hashDevice shaTag (if ("ua" : String) = "" then "unknown" else "ua"))).2)
          && prefEnabled wUser))
      ∧ (wUser.ipHistory = [] → wUser.deviceHistory = [] →
          classify wUser "9.9.9.9" (hashDevice shaTag (if ("ua" : String) = "" then "unknown" else "ua")) = (true, true))
      ∧ "9.9.9.9" ∈ (login bcAll shaTag signCat (some "sec") true wUser "pw" "9.9.9.9" "ua").finalUser.ipHistory) :=
  ⟨by decide, rfl,
    C1_classification_reads_pre_update_lists bcAll shaTag signCat (some "sec") true
      wUser "pw" "9.9.9.9" "ua" (by decide) rfl⟩

/-- C2: after a successful password verification an alert dispatch is attempted
iff (the login's IP is absent from the recent-IP list or its device fingerprint
is absent from the recent-device list) and the account's `newDeviceAlert`
preference is enabled; with the preference disabled no dispatch is attempted. -/
theorem C2_alert_iff_novel_and_pref_enabled
    (bc : String → String → Bool) (sha : String → String)
    (jwtSign : String → String → String) (secret : Option String)
    (mailOk : Bool) (u : UserRec) (pw ip ua : String)
    (hset : u.password ≠ "") (hmatch : bc pw u.password = true) :
    (login bc sha jwtSign secret mailOk u pw ip ua).alertAttempted = true
      ↔ ((ip ∉ u.ipHistory
            ∨ hashDevice sha (if ua = "" then "unknown" else ua) ∉ u.deviceHistory)
          ∧ u.notificationPreferences = some { newDeviceAlert := true }) := by
  rw [login_of_match bc sha jwtSign secret mailOk u pw ip ua hset hmatch]
  have key : ∀ r : LoginResult, r.alertAttempted = ((!(u.ipHistory.contains ip)
      || !(u.deviceHistory.contains (hashDevice sha (if ua = "" then "unknown" else ua))))
      && prefEnabled u) → (r.alertAttempted = true ↔
        ((ip ∉ u.ipHistory
            ∨ hashDevice sha (if ua = "" then "unknown" else ua) ∉ u.deviceHistory)
          ∧ u.notificationPreferences = some { newDeviceAlert := true })) := by
    intro r hr
    rw [hr, Bool.and_eq_true, Bool.or_eq_true, Bool.not_eq_true',
      Bool.not_eq_true', contains_eq_false_iff, contains_eq_false_iff,
      prefEnabled_iff]
  cases secret with
  | none => exact key _ rfl
  | some s => exact key _ rfl

theorem C2_witness :
    wUserNoPref.password ≠ "" ∧ bcAll "pw" wUserNoPref.password = true
    ∧ ((login bcAll shaTag signCat (some "sec") true wUserNoPref "pw" "9.9.9.9" "ua").alertAttempted = true
        ↔ (("9.9.9.9" ∉ wUserNoPref.ipHistory
              ∨ hashDevice shaTag (if ("ua" : String) = "" then "unknown" else "ua") ∉ wUserNoPref.deviceHistory)
            ∧ wUserNoPref.notificationPreferences = some { newDeviceAlert := true })) :=
  ⟨by decide, rfl,
    C2_alert_iff_novel_and_pref_enabled bcAll shaTag signCat (some "sec") true
      wUserNoPref "pw" "9.9.9.9" "ua" (by decide) rfl⟩

/-- C3: when the alert dispatch qualifies (novel origin, preference enabled)
but the mail collaborator throws, the login still completes normally: history
is updated, a token is issued, and a 200 response is returned with
`securityAlert` reported as `false`; no exception escapes (the handler is a
total function into `LoginResult`). -/
theorem C3_mail_failure_login_still_completes
    (bc : String → String → Bool) (sha : String → String)
    (jwtSign : String → String → String) (s : String)
    (u : UserRec) (pw ip ua : String)
    (hset : u.password ≠ "") (hmatch : bc pw u.password = true)
    (hnovel : ip ∉ u.ipHistory
      ∨ hashDevice sha (if ua = "" then "unknown" else ua) ∉ u.deviceHistory)
    (hpref : u.notificationPreferences = some { newDeviceAlert := true }) :
    (login bc sha jwtSign (some s) false u pw ip ua).alertAttempted = true
    ∧ (login bc sha jwtSign (some s) false u pw ip ua).status = 200
    ∧ (login bc sha jwtSign (some s) false u pw ip ua).securityAlert = false
    ∧ (login bc sha jwtSign (some s) false u pw ip ua).token = some (jwtSign u.id s)
    ∧ (login bc sha jwtSign (some s) false u pw ip ua).finalUser.ipHistory
        = recordList ip u.ipHistory
    ∧ (login bc sha jwtSign (some s) false u pw ip ua).finalUser.deviceHistory
        = recordList (hashDevice sha (if ua = "" then "unknown" else ua)) u.deviceHistory
    ∧ (login bc sha jwtSign (some s) false u pw ip ua).finalUser.lastLoginIp = some ip := by
  rw [login_of_match bc sha jwtSign (some s) false u pw ip ua hset hmatch]
  have hatt : (!(u.ipHistory.contains ip)
      || !(u.deviceHistory.contains
            (hashDevice sha (if ua = "" then "unknown" else ua)))) = true := by
    rw [Bool.or_eq_true, Bool.not_eq_true', Bool.not_eq_true']
    rcases hnovel with h | h
    · exact Or.inl ((contains_eq_false_iff _ _).mpr h)
    · exact Or.inr ((contains_eq_false_iff _ _).mpr h)
  have hpe : prefEnabled u = true := (prefEnabled_iff u).mpr hpref
  simp [hatt, hpe]
  exact hnovel

theorem C3_witness :
    wUser.password ≠ "" ∧ bcAll "pw" wUser.password = true
    ∧ ("9.9.9.9" ∉ wUser.ipHistory
        ∨ hashDevice shaTag (if ("ua" : String) = "" then "unknown" else "ua") ∉ wUser.deviceHistory)
    ∧ wUser.notificationPreferences = some { newDeviceAlert := true }
    ∧ ((login bcAll shaTag signCat (some "sec") false wUser "pw" "9.9.9.9" "ua").alertAttempted = true
      ∧ (login bcAll shaTag signCat (some "sec") false wUser "pw" "9.9.9.9" "ua").status = 200
      ∧ (login bcAll shaTag signCat (some "sec") false wUser "pw" "9.9.9.9" "ua").securityAlert = false
      ∧ (login bcAll shaTag signCat (some "sec") false wUser "pw" "9.9.9.9" "ua").token
          = some (signCat wUser.id "sec")
      ∧ (login bcAll shaTag signCat (some "sec") false wUser "pw" "9.9.9.9" "ua").finalUser.ipHistory
          = recordList "9.9.9.9" wUser.ipHistory
      ∧ (login bcAll shaTag signCat (some "sec") false wUser "pw" "9.9.9.9" "ua").finalUser.deviceHistory
          = recordList (hashDevice shaTag (if ("ua" : String) = "" then "unknown" else "ua")) wUser.deviceHistory
      ∧ (login bcAll shaTag signCat (some "sec") false wUser "pw" "9.9.9.9" "ua").finalUser.lastLoginIp
          = some "9.9.9.9") :=
  ⟨by decide, rfl, Or.inl (by simp [wUser]), rfl,
    C3_mail_failure_login_still_completes bcAll shaTag signCat "sec"
      wUser "pw" "9.9.9.9" "ua" (by decide) rfl (Or.inl (by simp [wUser])) rfl⟩

/-- C6: when the account exists but the supplied password does not match the
stored hash, the outcome is the 401 invalid-credentials response, no alert
dispatch is considered, no token is issued, and the account's state —
`ipHistory`, `deviceHistory`, `lastLoginIp` — is left unchanged. -/
theorem C6_wrong_password_401_no_mutation
    (bc : String → String → Bool) (sha : String → String)
    (jwtSign : String → String → String) (secret : Option String)
    (mailOk : Bool) (u : UserRec) (pw ip ua : String)
    (hset : u.password ≠ "") (hmatch : bc pw u.password = false) :
    (login bc sha jwtSign secret mailOk u pw ip ua).status = 401
    ∧ (login bc sha jwtSign secret mailOk u pw ip ua).alertAttempted = false
    ∧ (login bc sha jwtSign secret mailOk u pw ip ua).token = none
    ∧ (login bc sha jwtSign secret mailOk u pw ip ua).finalUser = u
    ∧ (login bc sha jwtSign secret mailOk u pw ip ua).finalUser.ipHistory = u.ipHistory
    ∧ (login bc sha jwtSign secret mailOk u pw ip ua).finalUser.deviceHistory = u.deviceHistory
    ∧ (login bc sha jwtSign secret mailOk u pw ip ua).finalUser.lastLoginIp = u.lastLoginIp := by
  have hcp : comparePassword bc u pw = Except.ok false := by
    rw [comparePassword, if_neg hset, hmatch]
  simp [login, hcp]

theorem C6_witness :
    wUser.password ≠ "" ∧ bcNone "wrong" wUser.password = false
    ∧ ((login bcNone shaTag signCat (some "sec") true wUser "wrong" "9.9.9.9" "ua").status = 401
      ∧ (login bcNone shaTag signCat (some "sec") true wUser "wrong" "9.9.9.9" "ua").alertAttempted = false
      ∧ (login bcNone shaTag signCat (some "sec") true wUser "wrong" "9.9.9.9" "ua").token = none
      ∧ (login bcNone shaTag signCat (some "sec") true wUser "wrong" "9.9.9.9" "ua").finalUser = wUser
      ∧ (login bcNone shaTag signCat (some "sec") true wUser "wrong" "9.9.9.9" "ua").finalUser.ipHistory
          = wUser.ipHistory
      ∧ (login bcNone shaTag signCat (some "sec") true wUser "wrong" "9.9.9.9" "ua").finalUser.deviceHistory
          = wUser.deviceHistory
      ∧ (login bcNone shaTag signCat (some "sec") true wUser "wrong" "9.9.9.9" "ua").finalUser.lastLoginIp
          = wUser.lastLoginIp) :=
  ⟨by decide, rfl,
    C6_wrong_password_401_no_mutation bcNone shaTag signCat (some "sec") true
      wUser "wrong" "9.9.9.9" "ua" (by decide) rfl⟩

/-- C9: if `JWT_SECRET` is unconfigured when a login with correct credentials
reaches token issuance, the request fails with the internal-error (500)
outcome and no token, but only after `ipHistory`, `deviceHistory` and
`lastLoginIp` have already been updated: the configuration failure is not
atomic with respect to account state. -/
theorem C9_missing_secret_fails_after_update
    (bc : String → String → Bool) (sha : String → String)
    (jwtSign : String → String → String) (mailOk : Bool)
    (u : UserRec) (pw ip ua : String)
    (hset : u.password ≠ "") (hmatch : bc pw u.password = true) :
    (login bc sha jwtSign none mailOk u pw ip ua).status = 500
    ∧ (login bc sha jwtSign none mailOk u pw ip ua).token = none
    ∧ (login bc sha jwtSign none mailOk u pw ip ua).finalUser.ipHistory
        = recordList ip u.ipHistory
    ∧ (login bc sha jwtSign none mailOk u pw ip ua).finalUser.deviceHistory
        = recordList (hashDevice sha (if ua = "" then "unknown" else ua)) u.deviceHistory
    ∧ (login bc sha jwtSign none mailOk u pw ip ua).finalUser.lastLoginIp = some ip := by
  rw [login_of_match bc sha jwtSign none mailOk u pw ip ua hset hmatch]
  simp

theorem C9_witness :
    wUser.password ≠ "" ∧ bcAll "pw" wUser.password = true
    ∧ ((login bcAll shaTag signCat none true wUser "pw" "9.9.9.9" "ua").status = 500
      ∧ (login bcAll shaTag signCat none true wUser "pw" "9.9.9.9" "ua").token = none
      ∧ (login bcAll shaTag signCat none true wUser "pw" "9.9.9.9" "ua").finalUser.ipHistory
          = recordList "9.9.9.9" wUser.ipHistory
      ∧ (login bcAll shaTag signCat none true wUser "pw" "9.9.9.9" "ua").finalUser.deviceHistory
          = recordList (hashDevice shaTag (if ("ua" : String) = "" then "unknown" else "ua")) wUser.deviceHistory
      ∧ (login bcAll shaTag signCat none true wUser "pw" "9.9.9.9" "ua").finalUser.lastLoginIp
          = some "9.9.9.9") :=
  ⟨by decide, rfl,
    C9_missing_secret_fails_after_update bcAll shaTag signCat true
      wUser "pw" "9.9.9.9" "ua" (by decide) rfl⟩

/-- C10: after every successful login the persisted `lastLoginIp` equals the
head of the updated `ipHistory` list: the head of the recent-IP list is the IP
of the most recent login. -/
theorem C10_lastLoginIp_is_head_of_ipHistory
    (bc : String → String → Bool) (sha : String → String)
    (jwtSign : String → String → String) (s : String) (mailOk : Bool)
    (u : UserRec) (pw ip ua : String)
    (hset : u.password ≠ "") (hmatch : bc pw u.password = true) :
    (login bc sha jwtSign (some s) mailOk u pw ip ua).status = 200
    ∧ (login bc sha jwtSign (some s) mailOk u pw ip ua).finalUser.ipHistory.head? = some ip
    ∧ (login bc sha jwtSign (some s) mailOk u pw ip ua).finalUser.lastLoginIp = some ip
    ∧ (login bc sha jwtSign (some s) mailOk u pw ip ua).finalUser.ipHistory.head?
        = (login bc sha jwtSign (some s) mailOk u pw ip ua).finalUser.lastLoginIp := by
  rw [login_of_match bc sha jwtSign (some s) mailOk u pw ip ua hset hmatch]
  simp [recordList_head]

theorem C10_witness :
    cxUser.password ≠ "" ∧ bcAll "pw" cxUser.password = true
    ∧ ((login bcAll shaTag signCat (some "sec") true cxUser "pw" "9.9.9.9" "ua").status = 200
      ∧ (login bcAll shaTag signCat (some "sec") true cxUser "pw" "9.9.9.9" "ua").finalUser.ipHistory.head?
          = some "9.9.9.9"
      ∧ (login bcAll shaTag signCat (some "sec") true cxUser "pw" "9.9.9.9" "ua").finalUser.lastLoginIp
          = some "9.9.9.9"
      ∧ (login bcAll shaTag signCat (some "sec") true cxUser "pw" "9.9.9.9" "ua").finalUser.ipHistory.head?
          = (login bcAll shaTag signCat (some "sec") true cxUser "pw" "9.9.9.9" "ua").finalUser.lastLoginIp) :=
  ⟨by decide, rfl,
    C10_lastLoginIp_is_head_of_ipHistory bcAll shaTag signCat "sec" true
      cxUser "pw" "9.9.9.9" "ua" (by decide) rfl⟩

/-- C4 counterexample: on the account whose full history is
`["a","b","c","d","e"]`, a successful login from IP `"a"` leaves
`["a","b","c","d"]` — the route truncates to the first 4 entries before
deduplicating — whereas prepend-dedup-truncate-to-5 would leave
`["a","b","c","d","e"]`; the entry `"e"` is dropped. -/
theorem C4_counterexample :
    (login bcAll shaTag signCat (some "sec") true cxUser "pw" "a" "ua").status = 200
    ∧ (login bcAll shaTag signCat (some "sec") true cxUser "pw" "a" "ua").finalUser.ipHistory
        = ["a", "b", "c", "d"]
    ∧ specRecord "a" cxUser.ipHistory = ["a", "b", "c", "d", "e"]
    ∧ (login bcAll shaTag signCat (some "sec") true cxUser "pw" "a" "ua").finalUser.ipHistory
        ≠ specRecord "a" cxUser.ipHistory := by
  refine ⟨?_, ?_, ?_, ?_⟩ <;>
    simp [login, comparePassword, bcAll, cxUser, recordList, specRecord,
      dedupFirst_cons, dedupFirst_nil]

/-- C4 amended: on every successful login the updated recent-IP list equals
the first-occurrence dedup of the new IP prepended to the first 4 entries of
the old list (truncation happens before deduplication, so when the old list
holds 5 entries and the new IP occurs among its first 4 the list shrinks and
the oldest entry is lost); identically for devices; both lists always stay
within 5 entries; after 6 distinct IPs recorded in sequence exactly the 5 most
recent remain, most-recent first; and `lastLoginIp` is set to the new IP. -/
theorem C4_amended_history_update_rule
    (bc : String → String → Bool) (sha : String → String)
    (jwtSign : String → String → String) (s : String) (mailOk : Bool)
    (u : UserRec) (pw ip ua : String)
    (hset : u.password ≠ "") (hmatch : bc pw u.password = true) :
    (login bc sha jwtSign (some s) mailOk u pw ip ua).status = 200
    ∧ (login bc sha jwtSign (some s) mailOk u pw ip ua).finalUser.ipHistory
        = dedupFirst (ip :: u.ipHistory.take 4)
    ∧ (login bc sha jwtSign (some s) mailOk u pw ip ua).finalUser.deviceHistory
        = dedupFirst (hashDevice sha (if ua = "" then "unknown" else ua)
            :: u.deviceHistory.take 4)
    ∧ (login bc sha jwtSign (some s) mailOk u pw ip ua).finalUser.ipHistory.length ≤ 5
    ∧ (login bc sha jwtSign (some s) mailOk u pw ip ua).finalUser.deviceHistory.length ≤ 5
    ∧ (login bc sha jwtSign (some s) mailOk u pw ip ua).finalUser.lastLoginIp = some ip
    ∧ (∀ v1 v2 v3 v4 v5 v6 : String,
        ([v1, v2, v3, v4, v5, v6] : List String).Nodup →
        recordList v6 (recordList v5 (recordList v4 (recordList v3
          (recordList v2 (recordList v1 []))))) = [v6, v5, v4, v3, v2]) := by
  rw [login_of_match bc sha jwtSign (some s) mailOk u pw ip ua hset hmatch]
  refine ⟨by simp, by simp [recordList], by simp [recordList], ?_, ?_, by simp, ?_⟩
  · simpa using recordList_length_le ip u.ipHistory
  · simpa using recordList_length_le
      (hashDevice sha (if ua = "" then "unknown" else ua)) u.deviceHistory
  · exact fun v1 v2 v3 v4 v5 v6 h => recordList_six_distinct v1 v2 v3 v4 v5 v6 h

theorem C4_witness :
    cxUser.password ≠ "" ∧ bcAll "pw" cxUser.password = true
    ∧ (login bcAll shaTag signCat (some "sec") true cxUser "pw" "f" "ua").finalUser.ipHistory
        = dedupFirst ("f" :: cxUser.ipHistory.take 4)
    ∧ (login bcAll shaTag signCat (some "sec") true cxUser "pw" "f" "ua").finalUser.ipHistory.length ≤ 5
    ∧ (login bcAll shaTag signCat (some "sec") true cxUser "pw" "f" "ua").finalUser.lastLoginIp
        = some "f" :=
  ⟨by decide, rfl,
    (C4_amended_history_update_rule bcAll shaTag signCat "sec" true
      cxUser "pw" "f" "ua" (by decide) rfl).2.1,
    (C4_amended_history_update_rule bcAll shaTag signCat "sec" true
      cxUser "pw" "f" "ua" (by decide) rfl).2.2.2.1,
    (C4_amended_history_update_rule bcAll shaTag signCat "sec" true
      cxUser "pw" "f" "ua" (by decide) rfl).2.2.2.2.2.1⟩

/-- C5 counterexample: two consecutive successful logins from IP `"a"` on an
account whose history is `["b","c","d","e"]`: the first records `"a"` giving
the full list `["a","b","c","d","e"]`, and the second — recording the same IP
again — leaves `["a","b","c","d"]`: the entry `"e"` is lost, so a repeated
recording on a full list is not idempotent and does lose an entry. -/
theorem C5_counterexample :
    (login bcAll shaTag signCat (some "sec") true cx5User "pw" "a" "ua").finalUser.ipHistory
      = ["a", "b", "c", "d", "e"]
    ∧ (login bcAll shaTag signCat (some "sec") true
        (login bcAll shaTag signCat (some "sec") true cx5User "pw" "a" "ua").finalUser
        "pw" "a" "ua").finalUser.ipHistory = ["a", "b", "c", "d"]
    ∧ "e" ∈ (login bcAll shaTag signCat (some "sec") true cx5User "pw" "a" "ua").finalUser.ipHistory
    ∧ "e" ∉ (login bcAll shaTag signCat (some "sec") true
        (login bcAll shaTag signCat (some "sec") true cx5User "pw" "a" "ua").finalUser
        "pw" "a" "ua").finalUser.ipHistory := by
  refine ⟨?_, ?_, ?_, ?_⟩ <;>
    simp [login, comparePassword, bcAll, cx5User, recordList, hashDevice, shaTag,
      dedupFirst_cons, dedupFirst_nil]

/-- C5 amended: recording the same value twice in a row keeps it at the front
and never duplicates it, and the second recording equals the first 4 entries
of the first recording's result: when that result has at most 4 entries
nothing is lost (full idempotence); when it is full with 5 entries, its last
entry is dropped. -/
theorem C5_amended_repeat_record (v : String) (l : List String) :
    (recordList v l).head? = some v
    ∧ recordList v (recordList v l) = (recordList v l).take 4
    ∧ (recordList v (recordList v l)).head? = some v
    ∧ (recordList v (recordList v l)).Nodup
    ∧ ((recordList v l).length ≤ 4 →
        recordList v (recordList v l) = recordList v l) :=
  ⟨recordList_head v l, recordList_same_twice v l,
    recordList_head v (recordList v l),
    recordList_nodup v (recordList v l),
    recordList_same_twice_of_short v l⟩

theorem C5_witness :
    ((recordList "x" ["y"]).head? = some "x"
    ∧ recordList "x" (recordList "x" ["y"]) = (recordList "x" ["y"]).take 4
    ∧ (recordList "x" (recordList "x" ["y"])).head? = some "x"
    ∧ (recordList "x" (recordList "x" ["y"])).Nodup
    ∧ ((recordList "x" ["y"]).length ≤ 4 →
        recordList "x" (recordList "x" ["y"]) = recordList "x" ["y"]))
    ∧ (recordList "x" ["y"]).length ≤ 4
    ∧ recordList "x" (recordList "x" ["y"]) = recordList "x" ["y"] :=
  ⟨C5_amended_repeat_record "x" ["y"],
    by simp [recordList, dedupFirst_cons, dedupFirst_nil],
    (C5_amended_repeat_record "x" ["y"]).2.2.2.2
      (by simp [recordList, dedupFirst_cons, dedupFirst_nil])⟩

/-- C7 counterexample: with an absent (empty) stored hash, `comparePassword`
throws ("Password not set") instead of returning `false`: the claim's
"returns a boolean, never throws, including on absent stored hash" fails. -/
theorem C7_counterexample :
    comparePassword bcAll noHashUser "anything" = Except.error "Password not set" := by
  simp [comparePassword, noHashUser]

/-- C7 amended: `comparePassword` delegates to the bcrypt comparison and
returns its boolean whenever a stored hash is present (the bcrypt collaborator
decides mismatch or malformed-hash cases, modelled as a total boolean
function), but when the stored hash is absent or empty it throws
"Password not set" rather than returning `false`. -/
theorem C7_amended_comparePassword_behaviour
    (bc : String → String → Bool) (u : UserRec) (cand : String) :
    (u.password ≠ "" → comparePassword bc u cand = Except.ok (bc cand u.password))
    ∧ (u.password = "" → comparePassword bc u cand = Except.error "Password not set") := by
  constructor <;> intro h <;> simp [comparePassword, h]

theorem C7_witness :
    wUser.password ≠ ""
    ∧ comparePassword bcNone wUser "wrong" = Except.ok (bcNone "wrong" wUser.password)
    ∧ noHashUser.password = ""
    ∧ comparePassword bcNone noHashUser "pw" = Except.error "Password not set" :=
  ⟨by decide,
    (C7_amended_comparePassword_behaviour bcNone wUser "wrong").1 (by decide),
    rfl,
    (C7_amended_comparePassword_behaviour bcNone noHashUser "pw").2 rfl⟩

/-- C8: `hashDevice` is deterministic — equal raw user-agent strings yield
equal fingerprints — and absent/empty input is mapped to the fixed sentinel
fingerprint, the hash of "unknown", rather than raising an error (the
embedding is a total function into `String`). -/
theorem C8_hashDevice_deterministic_sentinel
    (sha : String → String) (ua ub : String) :
    (ua = ub → hashDevice sha ua = hashDevice sha ub)
    ∧ hashDevice sha "" = sha "unknown"
    ∧ hashDevice sha "" = hashDevice sha "unknown"
    ∧ (ua ≠ "" → hashDevice sha ua = sha ua) := by
  refine ⟨fun h => by rw [h], by simp [hashDevice], by simp [hashDevice],
    fun h => by simp [hashDevice, h]⟩

theorem C8_witness :
    (("mozilla" : String) = "mozilla" →
      hashDevice shaTag "mozilla" = hashDevice shaTag "mozilla")
    ∧ hashDevice shaTag "" = shaTag "unknown"
    ∧ hashDevice shaTag "" = hashDevice shaTag "unknown"
    ∧ (("mozilla" : String) ≠ "" → hashDevice shaTag "mozilla" = shaTag "mozilla") :=
  C8_hashDevice_deterministic_sentinel shaTag "mozilla" "mozilla"

end WebLabs
